import Mathlib

/-!
Verification of the Sealie telemetry ingestion pipeline (src/sealie.py).

The definitions below are a shallow embedding of the Python source:
numeric sensor values and timestamps are modelled as rationals (`ℚ`),
Python lists as Lean `List`s, Python dicts either as association lists or
as total functions with explicit defaults, and `float(v)`-style fallible
parses as `Option ℚ`.  Each definition cites the source lines it embeds.
-/

set_option maxRecDepth 4000

namespace Sealie

/-- Python's slice `xs[-n:]`: the last `n` elements of `xs`
(the whole list when it is shorter than `n`). -/
def takeLast {α : Type} (n : Nat) (xs : List α) : List α :=
  xs.drop (xs.length - n)

theorem takeLast_eq_rtake {α : Type} (n : Nat) (xs : List α) :
    takeLast n xs = xs.rtake n := rfl

theorem takeLast_length {α : Type} (n : Nat) (xs : List α) :
    (takeLast n xs).length = min n xs.length := by
  simp [takeLast]
  omega

theorem takeLast_append_takeLast {α : Type} (n : Nat) (xs ys : List α) :
    takeLast n (takeLast n xs ++ ys) = takeLast n (xs ++ ys) := by
  have h1 : takeLast n (takeLast n xs ++ ys)
      = ((ys.reverse ++ xs.reverse.take n).take n).reverse := by
    rw [takeLast_eq_rtake, List.rtake_eq_reverse_take_reverse,
      List.reverse_append, takeLast_eq_rtake, List.rtake_eq_reverse_take_reverse,
      List.reverse_reverse]
  have h2 : takeLast n (xs ++ ys)
      = ((ys.reverse ++ xs.reverse).take n).reverse := by
    rw [takeLast_eq_rtake, List.rtake_eq_reverse_take_reverse, List.reverse_append]
  rw [h1, h2, List.take_append_eq_append_take, List.take_append_eq_append_take,
    List.take_take, Nat.min_eq_left (Nat.sub_le n ys.reverse.length)]

/-! ## Bounded DHT stream store (`append_dht_data`, src/sealie.py:1323-1336)

State fields mirror `self.time_data`, `self.temp_data`, `self.hum_data`
(initialised to `[], [], []` at src/sealie.py:130). -/

structure DhtStore where
  time_data : List ℚ
  temp_data : List ℚ
  hum_data : List ℚ
deriving DecidableEq

def DhtStore.init : DhtStore := ⟨[], [], []⟩

/-- `append_dht_data(self, temp, hum)` (src/sealie.py:1323-1336): append the
elapsed time `t` and both values, then keep only the last 100 points
(`self.time_data = self.time_data[-100:]` etc.). -/
def append_dht_data (st : DhtStore) (t temp hum : ℚ) : DhtStore :=
  { time_data := takeLast 100 (st.time_data ++ [t])
    temp_data := takeLast 100 (st.temp_data ++ [temp])
    hum_data := takeLast 100 (st.hum_data ++ [hum]) }

/-- Fold a sequence of `(t, temp, hum)` appends through `append_dht_data`. -/
def runDhtAppends (st : DhtStore) (xs : List (ℚ × ℚ × ℚ)) : DhtStore :=
  xs.foldl (fun s x => append_dht_data s x.1 x.2.1 x.2.2) st

/-- The DHT store determined by a full append history: each series holds the
last 100 entries of its projected history. -/
def dhtStoreOf (hist : List (ℚ × ℚ × ℚ)) : DhtStore :=
  { time_data := takeLast 100 (hist.map (·.1))
    temp_data := takeLast 100 (hist.map (·.2.1))
    hum_data := takeLast 100 (hist.map (·.2.2)) }

theorem append_dht_dhtStoreOf (hist : List (ℚ × ℚ × ℚ)) (t temp hum : ℚ) :
    append_dht_data (dhtStoreOf hist) t temp hum = dhtStoreOf (hist ++ [(t, temp, hum)]) := by
  unfold append_dht_data dhtStoreOf
  simp only [List.map_append, List.map_cons, List.map_nil, DhtStore.mk.injEq]
  exact ⟨takeLast_append_takeLast 100 _ _, takeLast_append_takeLast 100 _ _,
    takeLast_append_takeLast 100 _ _⟩

theorem runDhtAppends_nil (st : DhtStore) : runDhtAppends st [] = st := rfl

theorem runDhtAppends_cons (st : DhtStore) (x : ℚ × ℚ × ℚ) (xs : List (ℚ × ℚ × ℚ)) :
    runDhtAppends st (x :: xs) = runDhtAppends (append_dht_data st x.1 x.2.1 x.2.2) xs := rfl

theorem runDhtAppends_dhtStoreOf (hist xs : List (ℚ × ℚ × ℚ)) :
    runDhtAppends (dhtStoreOf hist) xs = dhtStoreOf (hist ++ xs) := by
  induction xs generalizing hist with
  | nil => rw [runDhtAppends_nil, List.append_nil]
  | cons x xs ih =>
      rw [runDhtAppends_cons, append_dht_dhtStoreOf, ih]
      simp

theorem dhtStoreOf_nil : dhtStoreOf [] = DhtStore.init := rfl

/-! ## Bounded generic stream store (`_ingest_template_sensor`, src/sealie.py:4916-4923)

A stream `{"time": [...], field: [...]}` from `self.generic_streams`; the
field dict is modelled as a total function defaulting to `[]`, which matches
`stream.setdefault(f, [])`. -/

@[ext]
structure GenStream where
  time : List ℚ
  vals : String → List ℚ

/-- Body of the `for f in sensor.get("fields", [])` loop
(src/sealie.py:4919-4922): `stream.setdefault(f, []).append(float(data.get(f, 0.0)))`
followed by `stream[f] = stream[f][-200:]`. -/
def genFieldStep (data : String → Option ℚ) (s : GenStream) (f : String) : GenStream :=
  { s with vals := Function.update s.vals f (takeLast 200 (s.vals f ++ [(data f).getD 0])) }

/-- One generic-stream ingest step (src/sealie.py:4916-4923): append `now` to
`stream["time"]`, run the per-field loop, then trim the time series to `[-200:]`. -/
def ingestGeneric (fields : List String) (st : GenStream) (now : ℚ)
    (data : String → Option ℚ) : GenStream :=
  let st1 : GenStream := { st with time := st.time ++ [now] }
  let st2 : GenStream := fields.foldl (genFieldStep data) st1
  { st2 with time := takeLast 200 st2.time }

/-- Fold a sequence of `(now, data)` ingests through `ingestGeneric`. -/
def runGenIngests (fields : List String) (st : GenStream)
    (xs : List (ℚ × (String → Option ℚ))) : GenStream :=
  xs.foldl (fun s x => ingestGeneric fields s x.1 x.2) st

/-- The generic stream determined by a full ingest history. -/
def genStreamOf (fields : List String) (hist : List (ℚ × (String → Option ℚ))) : GenStream :=
  { time := takeLast 200 (hist.map (·.1))
    vals := fun f =>
      if f ∈ fields then takeLast 200 (hist.map (fun x => (x.2 f).getD 0)) else [] }

theorem genFieldStep_foldl_time (fields : List String) (st : GenStream)
    (data : String → Option ℚ) :
    (fields.foldl (genFieldStep data) st).time = st.time := by
  induction fields generalizing st with
  | nil => rfl
  | cons f fs ih => exact ih _

theorem genFieldStep_foldl_vals_not_mem (fields : List String) (st : GenStream)
    (data : String → Option ℚ) (g : String) (hg : g ∉ fields) :
    (fields.foldl (genFieldStep data) st).vals g = st.vals g := by
  induction fields generalizing st with
  | nil => rfl
  | cons f fs ih =>
      have hgf : g ≠ f := fun h => hg (h ▸ List.mem_cons_self f fs)
      have hgfs : g ∉ fs := fun h => hg (List.mem_cons_of_mem f h)
      rw [List.foldl_cons, ih _ hgfs]
      simp [genFieldStep, Function.update, hgf]

theorem genFieldStep_foldl_vals_mem (fields : List String) (hnd : fields.Nodup)
    (st : GenStream) (data : String → Option ℚ) (g : String) (hg : g ∈ fields) :
    (fields.foldl (genFieldStep data) st).vals g
      = takeLast 200 (st.vals g ++ [(data g).getD 0]) := by
  induction fields generalizing st with
  | nil => cases hg
  | cons f fs ih =>
      rcases List.mem_cons.mp hg with h | h
      · subst h
        have hgfs : g ∉ fs := (List.nodup_cons.mp hnd).1
        rw [List.foldl_cons, genFieldStep_foldl_vals_not_mem fs _ data g hgfs]
        simp [genFieldStep, Function.update]
      · have hgf : g ≠ f := by
          intro he
          exact (List.nodup_cons.mp hnd).1 (he ▸ h)
        rw [List.foldl_cons, ih (List.nodup_cons.mp hnd).2 _ h]
        simp [genFieldStep, Function.update, hgf]

theorem ingestGeneric_genStreamOf (fields : List String) (hnd : fields.Nodup)
    (hist : List (ℚ × (String → Option ℚ))) (now : ℚ) (data : String → Option ℚ) :
    ingestGeneric fields (genStreamOf fields hist) now data
      = genStreamOf fields (hist ++ [(now, data)]) := by
  refine GenStream.ext ?_ (funext fun g => ?_)
  · show takeLast 200 ((fields.foldl (genFieldStep data) _).time) = _
    rw [genFieldStep_foldl_time]
    show takeLast 200 (takeLast 200 (hist.map (·.1)) ++ [now]) = _
    rw [takeLast_append_takeLast]
    simp [genStreamOf]
  · show (fields.foldl (genFieldStep data) _).vals g = _
    by_cases hg : g ∈ fields
    · rw [genFieldStep_foldl_vals_mem fields hnd _ data g hg]
      show takeLast 200 ((genStreamOf fields hist).vals g ++ [(data g).getD 0]) = _
      simp only [genStreamOf, hg, if_true]
      rw [takeLast_append_takeLast]
      simp
    · rw [genFieldStep_foldl_vals_not_mem fields _ data g hg]
      simp [genStreamOf, hg]

theorem runGenIngests_nil (fields : List String) (st : GenStream) :
    runGenIngests fields st [] = st := rfl

theorem runGenIngests_cons (fields : List String) (st : GenStream)
    (x : ℚ × (String → Option ℚ)) (xs : List (ℚ × (String → Option ℚ))) :
    runGenIngests fields st (x :: xs) = runGenIngests fields (ingestGeneric fields st x.1 x.2) xs :=
  rfl

theorem runGenIngests_genStreamOf (fields : List String) (hnd : fields.Nodup)
    (hist xs : List (ℚ × (String → Option ℚ))) :
    runGenIngests fields (genStreamOf fields hist) xs = genStreamOf fields (hist ++ xs) := by
  induction xs generalizing hist with
  | nil => rw [runGenIngests_nil, List.append_nil]
  | cons x xs ih =>
      rw [runGenIngests_cons, ingestGeneric_genStreamOf fields hnd, ih]
      simp

/-! ## Orientation calibration (src/sealie.py:1122-1137, 1913-1951, 1264-1271)

`self.yaw/pitch/roll` and `self.cal_yaw/cal_pitch/cal_roll`
(both triples initialised to zero at src/sealie.py:131-132). -/

structure OrientationState where
  yaw : ℚ
  pitch : ℚ
  roll : ℚ
  cal_yaw : ℚ
  cal_pitch : ℚ
  cal_roll : ℚ
deriving DecidableEq

def OrientationState.init : OrientationState := ⟨0, 0, 0, 0, 0, 0⟩

/-- `calibrate_sensor` (src/sealie.py:1122-1128): store the current
orientation values as the zero reference. -/
def calibrate_sensor (st : OrientationState) : OrientationState :=
  { st with cal_yaw := st.yaw, cal_pitch := st.pitch, cal_roll := st.roll }

/-- `update_3d_orientation` (src/sealie.py:1913-1951): the normalized angles
`self.yaw - self.cal_yaw` etc. computed at src/sealie.py:1922-1924 (before the
conversion to radians and the pure-rendering rotation), returned together with
the state, which the method only reads and never writes. -/
def update_3d_orientation (st : OrientationState) : (ℚ × ℚ × ℚ) × OrientationState :=
  ((st.yaw - st.cal_yaw, st.pitch - st.cal_pitch, st.roll - st.cal_roll), st)

/-- Orientation ingestion state: the orientation fields plus the `log_data`
entries recorded as `(sensor, values)` pairs (src/sealie.py:560-565). -/
structure OrientationLogState where
  orient : OrientationState
  dataLog : List (String × List ℚ)
deriving DecidableEq

/-- Handling of an orientation reading `YAW/PITCH/ROLL` on the legacy generic
key:value path (src/sealie.py:1264-1271): assign the raw decoded values to
`self.yaw/pitch/roll`, call `log_data("3D Orientation", (self.yaw, self.pitch,
self.roll))` with those raw values, then call `update_3d_orientation` (whose
normalized display angles are returned first). -/
def processOrientationReading (st : OrientationLogState) (y p r : ℚ) :
    (ℚ × ℚ × ℚ) × OrientationLogState :=
  let o : OrientationState := { st.orient with yaw := y, pitch := p, roll := r }
  let log := st.dataLog ++ [("3D Orientation", [o.yaw, o.pitch, o.roll])]
  let res := update_3d_orientation o
  (res.1, { orient := res.2, dataLog := log })

/-! ## AS7341 frame aggregator (`_try_parse_as7341`, src/sealie.py:5017-5076)

The channel-key vocabulary of the regex
`\b(F[1-8]|CLEAR|NIR)\b(?:\s*\d*nm)?\s*:\s*(-?\d+(?:\.\d+)?)`: the pattern can
only ever capture these ten keys, and its numeric capture group always parses
as a float, so a matched line is modelled by its (already uppercased) list of
`(key, value)` matches. -/

inductive ChanKey
  | F1 | F2 | F3 | F4 | F5 | F6 | F7 | F8 | CLEAR | NIR
deriving DecidableEq, Fintype

/-- `keys = ["F1", ..., "CLEAR", "NIR"]` (src/sealie.py:5021). -/
def as7341Keys : List ChanKey :=
  [.F1, .F2, .F3, .F4, .F5, .F6, .F7, .F8, .CLEAR, .NIR]

theorem mem_as7341Keys (k : ChanKey) : k ∈ as7341Keys := by
  cases k <;> simp [as7341Keys]

/-- `self._as7341_buf = {"data": {...}, "t": ...}` (src/sealie.py:139). -/
structure As7341Buf where
  data : ChanKey → Option ℚ
  t : ℚ

/-- Initial buffer `{"data": {}, "t": 0.0}` (src/sealie.py:139). -/
def As7341Buf.init : As7341Buf := ⟨fun _ => none, 0⟩

/-- A raw line as seen by `_try_parse_as7341`: the regex match list, whether
`line.upper().startswith("AS7341")`, and whether the line is an AS7341 CSV
line without any colon (`line.upper().startswith("AS7341,") and ":" not in
line`; such a line necessarily has no regex matches). -/
structure As7341Line where
  pairs : List (ChanKey × ℚ)
  startsAs7341 : Bool
  as7341CsvNoColon : Bool

/-- The `for k, v in matches: buf["data"][k.upper()] = float(v)` loop
(src/sealie.py:5038-5042); the regex guarantees every captured value parses. -/
def mergePairs (d : ChanKey → Option ℚ) (m : List (ChanKey × ℚ)) : ChanKey → Option ℚ :=
  m.foldl (fun d kv => Function.update d kv.1 (some kv.2)) d

structure As7341Result where
  emitted : Option (List (ChanKey × ℚ))
  buf : As7341Buf
  consumed : Bool

/-- `_try_parse_as7341` (src/sealie.py:5017-5076): bail out if there are no
matches and the line is not AS7341-prefixed, or if it is a colon-free AS7341
CSV line; reset the buffer when stale (`now - buf.t > 1.5`), stamp `t = now`,
merge the line's pairs, and when all ten keys are present emit one reading
`{k: buf["data"][k] for k in keys}` and reset the buffer.  The sensor lookup /
auto-registration and ingest call between src/sealie.py:5046-5072 are out of
this function's frame and modelled by the emitted reading. -/
def tryParseAs7341 (buf : As7341Buf) (now : ℚ) (line : As7341Line) : As7341Result :=
  if line.pairs = [] ∧ line.startsAs7341 = false then ⟨none, buf, false⟩
  else if line.as7341CsvNoColon = true then ⟨none, buf, false⟩
  else if ∀ k ∈ as7341Keys,
      (mergePairs (if now - buf.t > 3/2 then fun _ => none else buf.data) line.pairs k).isSome then
    ⟨some (as7341Keys.map fun k =>
        (k, (mergePairs (if now - buf.t > 3/2 then fun _ => none else buf.data) line.pairs
          k).getD 0)),
      ⟨fun _ => none, now⟩, true⟩
  else
    ⟨none,
      ⟨mergePairs (if now - buf.t > 3/2 then fun _ => none else buf.data) line.pairs, now⟩,
      !line.pairs.isEmpty⟩

theorem mergePairs_isSome (d : ChanKey → Option ℚ) (m : List (ChanKey × ℚ)) (k : ChanKey) :
    (mergePairs d m k).isSome ↔ (d k).isSome ∨ k ∈ m.map Prod.fst := by
  induction m generalizing d with
  | nil => simp [mergePairs]
  | cons kv m ih =>
      show (mergePairs (Function.update d kv.1 (some kv.2)) m k).isSome ↔ _
      rw [ih]
      by_cases hk : k = kv.1
      · subst hk
        simp [Function.update]
      · simp [Function.update, hk]

/-- Characterization of `tryParseAs7341` on a plain key:value line with at
least one match: the staleness reset followed by the merge, then either a
completed-frame emission or buffering. -/
theorem tryParseAs7341_eq (D : ChanKey → Option ℚ) (tb now : ℚ)
    (m : List (ChanKey × ℚ)) (hm : m ≠ []) :
    tryParseAs7341 ⟨D, tb⟩ now ⟨m, false, false⟩
      = (if ∀ k ∈ as7341Keys,
            (mergePairs (if now - tb > 3/2 then fun _ => none else D) m k).isSome then
          ⟨some (as7341Keys.map fun k =>
              (k, (mergePairs (if now - tb > 3/2 then fun _ => none else D) m k).getD 0)),
            ⟨fun _ => none, now⟩, true⟩
        else
          ⟨none, ⟨mergePairs (if now - tb > 3/2 then fun _ => none else D) m, now⟩, true⟩) := by
  have hme : m.isEmpty = false := by
    cases m with
    | nil => exact absurd rfl hm
    | cons a l => rfl
  unfold tryParseAs7341
  rw [if_neg (fun h => hm h.1), if_neg (by simp)]
  simp only [hme, Bool.not_false]

/-! ## String helpers for the wire protocol

Python's `str.upper()` and `str.startswith()` are modelled over the character
list of the string (for the ASCII wire strings handled by the pipeline),
which keeps them amenable to proof and to kernel evaluation. -/

theorem char_toNat_ofNat_valid (m : Nat) (hv : m.isValidChar) : (Char.ofNat m).toNat = m := by
  rw [Char.ofNat, dif_pos hv]
  rfl

theorem char_toUpper_idem (c : Char) : c.toUpper.toUpper = c.toUpper := by
  by_cases h : c.toNat ≥ 97 ∧ c.toNat ≤ 122
  · have h1 : c.toUpper = Char.ofNat (c.toNat - 32) := by
      rw [Char.toUpper, if_pos h]
    have hv : Nat.isValidChar (c.toNat - 32) := Or.inl (by omega)
    rw [h1, Char.toUpper, char_toNat_ofNat_valid _ hv, if_neg (by omega)]
  · have h1 : c.toUpper = c := by
      rw [Char.toUpper, if_neg h]
    rw [h1, h1]

/-- Python `s.upper()`: uppercase every character. -/
def pyUpper (s : String) : String := ⟨s.data.map Char.toUpper⟩

theorem pyUpper_idem (s : String) : pyUpper (pyUpper s) = pyUpper s := by
  simp [pyUpper, List.map_map, Function.comp_def, char_toUpper_idem]

/-- Python `s.startswith(pre)`. -/
def pyStartsWith (s pre : String) : Bool := pre.data.isPrefixOf s.data

/-! ## Delimited (CSV-like) sensor lines (`_parse_csv_sensor_line`,
src/sealie.py:4929-5015)

A sensor template as cached by `_load_templates_if_needed`
(src/sealie.py:1962-1975): the JSON record's fields with the access defaults
the code applies, plus the `_compiled` slot.  The compiled regex object is
modelled by the pattern string it was compiled from (`none` when `_compiled`
is `None`).  The display-only `labels`/`ranges` payloads are not modelled:
no claim mentions them and the pipeline never reads them. -/

structure SensorTemplate where
  ttype : String
  icon : String
  fields : List String
  graph_type : String
  regex : String
  compiled : Option String
deriving DecidableEq

/-- An entry of `self.active_sensors` (dict at src/sealie.py:4951-4973);
`stype` is the `"type"` key. -/
structure ActiveSensor where
  stype : String
  name : String
  port : String
  icon : String
  fields : List String
  graph : String
  compiled : Option String
deriving DecidableEq

/-- The state touched by `_parse_csv_sensor_line`: `self.active_sensors`,
`self.generic_streams` (name → stream) and the `log_data` log
(src/sealie.py:135-143, 560-565). -/
structure IngestState where
  active_sensors : List ActiveSensor
  generic_streams : List (String × GenStream)
  data_log : List (String × List (Option ℚ))

/-- The per-sensor match test of the loop at src/sealie.py:4938-4945:
`t == sensor_type`, or for `MPU6050` lines the two accepted aliases. -/
def sensorMatches (sensor_type : String) (s : ActiveSensor) : Bool :=
  pyUpper s.stype == sensor_type
    || (sensor_type == "MPU6050"
        && (pyUpper s.stype == "MPU6050" || pyUpper s.stype == "ITG/MPU6050"))

/-- The generic fallback sensor (src/sealie.py:4950-4961): positional fields
`F1..Fn` sized to the observed value-token count. -/
def genericSensor (sensor_type : String) (nvals : Nat) : ActiveSensor :=
  { stype := sensor_type, name := sensor_type, port := "", icon := "🧩"
    fields := (List.range nvals).map fun i => "F" ++ toString (i + 1)
    graph := if nvals = 1 then "single-line" else "dual-line"
    compiled := none }

/-- A sensor synthesized from a template (src/sealie.py:4962-4973). -/
def templateSensor (sensor_type : String) (tpl : SensorTemplate) : ActiveSensor :=
  { stype := sensor_type, name := sensor_type, port := "", icon := tpl.icon
    fields := tpl.fields, graph := tpl.graph_type, compiled := tpl.compiled }

/-- The stream entry created at registration (src/sealie.py:4975-4978):
`{"time": []}` plus an empty list per field — with the total-function model
of the field dict this is the all-empty stream. -/
def freshStream : GenStream := ⟨[], fun _ => []⟩

/-- The sensor synthesized by auto-registration (src/sealie.py:4946-4973):
from the template when the registry has one, generic fallback otherwise. -/
def registeredSensor (tpl : String → Option SensorTemplate) (sensor_type : String)
    (nvals : Nat) : ActiveSensor :=
  match tpl sensor_type with
  | none => genericSensor sensor_type nvals
  | some t => templateSensor sensor_type t

/-- Auto-registration (src/sealie.py:4946-4982): synthesize a sensor from the
template registry (generic fallback when absent), append it to
`self.active_sensors`, and create its stream entry unless one already
exists. -/
def autoRegister (tpl : String → Option SensorTemplate) (st : IngestState)
    (sensor_type : String) (nvals : Nat) : IngestState × ActiveSensor :=
  let s := registeredSensor tpl sensor_type nvals
  let streams := if (st.generic_streams.find? (fun p => p.1 == s.name)).isSome
    then st.generic_streams
    else st.generic_streams ++ [(s.name, freshStream)]
  ({ st with active_sensors := st.active_sensors ++ [s], generic_streams := streams }, s)

/-- The `values` list built at src/sealie.py:4984-4989: each value token's
`float()` result, with `0.0` on parse failure (non-numeric tokens are
represented by `none`). -/
def csvFloats (toks : List (Option ℚ)) : List ℚ :=
  toks.map fun t => t.getD 0

/-- The MPU6050 special case (src/sealie.py:4994-5000): a 2-value line for a
3-field MPU6050/ITG-MPU6050 sensor is `(pitch, roll)`, yaw prepended as 0. -/
def mpuAdjust (sensor_type : String) (fields : List String) (values : List ℚ) : List ℚ :=
  if (sensor_type = "MPU6050" ∨ sensor_type = "ITG/MPU6050")
      ∧ fields.length = 3 ∧ values.length = 2 then 0 :: values else values

/-- Value decoding of a delimited line (src/sealie.py:4983-5006): parse each
value token as a float with `0.0` fallback, drop DS18B20 disconnection
sentinels (first value ≤ −120), prepend a zero yaw for 2-value MPU6050 lines,
pad with trailing `0.0`, truncate to the field count, and map values to
fields positionally. -/
def decodeCsvValues (sensor_type : String) (fields : List String)
    (toks : List (Option ℚ)) : Option (List (String × ℚ)) :=
  if sensor_type = "DS18B20" ∧ 0 < (csvFloats toks).length ∧ (csvFloats toks).headI ≤ -120
  then none
  else
    some (fields.zip
      ((mpuAdjust sensor_type fields (csvFloats toks)
          ++ List.replicate
              (fields.length - (mpuAdjust sensor_type fields (csvFloats toks)).length)
              0).take
        fields.length))

/-- A delimited line after `line.split(",")` and stripping: the type token
and the value tokens (each by its `float()` parse result). -/
structure CsvLine where
  typeTok : String
  valueToks : List (Option ℚ)

/-- Result of `_parse_csv_sensor_line`: the returned bool, the updated state,
and the ingest deferred via `self.after(0, ...)` (src/sealie.py:5007-5010),
when one was scheduled. -/
structure CsvResult where
  consumed : Bool
  state : IngestState
  pending : Option (ActiveSensor × List (String × ℚ))

/-- Tail of `_parse_csv_sensor_line` after the sensor is resolved
(src/sealie.py:4983-5013): decode the value tokens (`none` = DS18B20
sentinel, silently ignored) and otherwise schedule the ingest of the
positional field map via `self.after(0, ...)`. -/
def dispatchDecode (sensor_type : String) (st : IngestState) (s : ActiveSensor)
    (toks : List (Option ℚ)) : CsvResult :=
  match decodeCsvValues sensor_type s.fields toks with
  | none => ⟨true, st, none⟩
  | some data => ⟨true, st, some (s, data)⟩

/-- `_parse_csv_sensor_line` (src/sealie.py:4929-5015): bail out on fewer
than two tokens; find the matching active sensor or auto-register one; then
decode and dispatch. -/
def parse_csv_sensor_line (tpl : String → Option SensorTemplate) (st : IngestState)
    (line : CsvLine) : CsvResult :=
  if line.valueToks = [] then ⟨false, st, none⟩
  else
    match st.active_sensors.find? (sensorMatches (pyUpper line.typeTok)) with
    | some s => dispatchDecode (pyUpper line.typeTok) st s line.valueToks
    | none =>
        dispatchDecode (pyUpper line.typeTok)
          (autoRegister tpl st (pyUpper line.typeTok) line.valueToks.length).1
          (autoRegister tpl st (pyUpper line.typeTok) line.valueToks.length).2
          line.valueToks

/-! ## Legacy key:value lines (read_serial fallback, src/sealie.py:1187-1316)

A legacy line is modelled by its token list after
`line.replace(",", " ").split()`: each token a `KEY:VALUE` pair, keyed by the
text before the first colon with its `float()` value.  A non-numeric value
raises inside the branch's `try` and nothing is stored, so only all-numeric
lines reach a store; the embedding covers those. -/

/-- What a legacy line stores (`append_dht_data` / orientation fields /
`log_data` effects of the branches at src/sealie.py:1189-1316). -/
inductive LegacyStored
  | orientTempHum (yaw pitch roll tempC hum : ℚ)
  | dht (tempC hum : ℚ)
  | orient (yaw pitch roll : ℚ)
  | genTempHum (tempC hum : ℚ)
  | tempOnly (tempC : ℚ)
  | humOnly (hum : ℚ)
  | unrecognized
  | parseError
deriving DecidableEq

/-- `float([p for p in parts if p.startswith(pre)][0].split(":")[1])`:
the value of the first token whose key starts with `pre`. -/
def keyLookup (pre : String) (toks : List (String × ℚ)) : Option ℚ :=
  (toks.find? fun t => pyStartsWith t.1 pre).map (·.2)

/-- The TEMP-or-DHT token filter of the TEMP/DHT branch
(src/sealie.py:1235-1241). -/
def keyLookupTempDht (toks : List (String × ℚ)) : Option ℚ :=
  (toks.find? fun t => pyStartsWith t.1 "TEMP" || pyStartsWith t.1 "DHT").map (·.2)

/-- The generic branch's dict `data[k.strip().upper()] = float(v.strip())`
(src/sealie.py:1256-1261); a later duplicate key overwrites an earlier one,
hence the reversed search. -/
def dictLookup (k : String) (toks : List (String × ℚ)) : Option ℚ :=
  ((toks.map fun t => (pyUpper t.1, t.2)).reverse.find? fun t => t.1 == k).map (·.2)

/-- `(temp_f - 32) * 5 / 9` (src/sealie.py:1208, 1246, 1282, 1294). -/
def fahrenheitToCelsius (f : ℚ) : ℚ := (f - 32) * 5 / 9

/-- The `line.startswith("YAW")` branch (src/sealie.py:1189-1230): find the
YAW/PITCH/ROLL/TEMP/HUM tokens, convert TEMP from Fahrenheit, store; a
missing token raises and nothing is stored. -/
def yawBranch (toks : List (String × ℚ)) : LegacyStored :=
  match keyLookup "YAW" toks, keyLookup "PITCH" toks, keyLookup "ROLL" toks,
      keyLookup "TEMP" toks, keyLookup "HUM" toks with
  | some y, some p, some r, some tf, some h =>
      .orientTempHum y p r (fahrenheitToCelsius tf) h
  | _, _, _, _, _ => .parseError

/-- The `line.startswith("TEMP") or line.startswith("DHT")` branch
(src/sealie.py:1231-1253). -/
def tempDhtBranch (toks : List (String × ℚ)) : LegacyStored :=
  match keyLookupTempDht toks, keyLookup "HUM" toks with
  | some tf, some h => .dht (fahrenheitToCelsius tf) h
  | _, _ => .parseError

/-- The generic key:value fallback (src/sealie.py:1254-1313): orientation
first, then TEMP+HUM, TEMP alone, HUM alone, else unrecognized. -/
def genericBranch (toks : List (String × ℚ)) : LegacyStored :=
  match dictLookup "YAW" toks, dictLookup "PITCH" toks, dictLookup "ROLL" toks with
  | some y, some p, some r => .orient y p r
  | _, _, _ =>
    match dictLookup "TEMP" toks, dictLookup "HUM" toks with
    | some tf, some h => .genTempHum (fahrenheitToCelsius tf) h
    | _, _ =>
      match dictLookup "TEMP" toks with
      | some tf => .tempOnly (fahrenheitToCelsius tf)
      | none =>
        match dictLookup "HUM" toks with
        | some h => .humOnly h
        | none => .unrecognized

/-- The legacy cascade of `read_serial` (src/sealie.py:1187-1316), keyed on
the line prefix (the first token starts the stripped line). -/
def legacyDecode (toks : List (String × ℚ)) : LegacyStored :=
  match toks with
  | [] => .unrecognized
  | t0 :: _ =>
    if pyStartsWith t0.1 "YAW" then yawBranch toks
    else if pyStartsWith t0.1 "TEMP" || pyStartsWith t0.1 "DHT" then tempDhtBranch toks
    else genericBranch toks

/-- The temperature a legacy decode stores (the first argument passed to
`append_dht_data`, when one is passed). -/
def storedTemp : LegacyStored → Option ℚ
  | .orientTempHum _ _ _ t _ => some t
  | .dht t _ => some t
  | .genTempHum t _ => some t
  | .tempOnly t => some t
  | _ => none

/-! ## Sensor template registry (`_load_templates_if_needed`,
src/sealie.py:1962-1975) -/

/-- A raw record of `sensor_templates.json` as the loader reads it:
`t["type"]`, `t.get("parser", {}).get("regex", "")` ("" when missing) and the
display fields. -/
structure TemplateSpec where
  ttype : String
  icon : String
  fields : List String
  graph_type : String
  regex : String
deriving DecidableEq

/-- Python dict insertion with string keys: overwrite an existing binding in
place, else append. -/
def dictInsert (m : List (String × SensorTemplate)) (k : String) (v : SensorTemplate) :
    List (String × SensorTemplate) :=
  if (m.find? fun p => p.1 == k).isSome
  then m.map fun p => if p.1 == k then (k, v) else p
  else m ++ [(k, v)]

/-- Python `cache.get(key)`. -/
def dictGet (m : List (String × SensorTemplate)) (k : String) : Option SensorTemplate :=
  (m.find? fun p => p.1 == k).map (·.2)

/-- `_load_templates_if_needed` (src/sealie.py:1962-1975).  `validRegex`
models whether `re.compile` accepts a pattern (Python's regex grammar is
outside this embedding); the compiled object is represented by its pattern
string.  The whole body runs in one `try`: a missing or malformed file
(`src = none`), or any template whose non-empty pattern fails to compile,
raises, and the `except` sets the cache to `{}` — otherwise each template
gets `_compiled` (`None` for an empty/missing pattern) and the cache maps
uppercased type to template. -/
def loadTemplates (validRegex : String → Bool) (src : Option (List TemplateSpec)) :
    List (String × SensorTemplate) :=
  match src with
  | none => []
  | some ts =>
      if ts.all (fun t => t.regex == "" || validRegex t.regex) then
        ts.foldl
          (fun m t => dictInsert m (pyUpper t.ttype)
            { ttype := t.ttype, icon := t.icon, fields := t.fields
              graph_type := t.graph_type, regex := t.regex
              compiled := if t.regex = "" then none else some t.regex })
          []
      else []

/-- `_get_template_by_type` (src/sealie.py:1977-1979): case-insensitive
lookup. -/
def getTemplateByType (reg : List (String × SensorTemplate)) (ty : String) :
    Option SensorTemplate :=
  dictGet reg (pyUpper ty)

/-! ## read_serial notification throttling (src/sealie.py:1143-1316)

One loop iteration classified by what the line was: an empty read
(timeout), a line recognized by some decoding path, or an unrecognized
non-empty line. -/

inductive LineEvent
  | empty
  | unrecognized
  | dataLine
deriving DecidableEq

/-- One iteration's effect on `no_data_counter` and the number of *warning*
notifications fired: an empty read increments the counter and notifies
exactly when it reaches 10 (src/sealie.py:1151-1158); any non-empty line
resets the counter (src/sealie.py:1159), and an unrecognized line fires one
warning notification of its own (src/sealie.py:1309-1313). -/
def serialStep (c : Nat) : LineEvent → Nat × Nat
  | .empty => (c + 1, if c + 1 = 10 then 1 else 0)
  | .unrecognized => (0, 1)
  | .dataLine => (0, 0)

/-- Run the loop over a list of classified reads, returning the final
counter and the total number of warning notifications fired. -/
def runSerial (c : Nat) : List LineEvent → Nat × Nat
  | [] => (c, 0)
  | ev :: evs =>
      ((runSerial (serialStep c ev).1 evs).1,
        (serialStep c ev).2 + (runSerial (serialStep c ev).1 evs).2)

end Sealie

namespace Sealie

/-- C3: for every sequence of appends to a sensor's stream (the DHT store of
`append_dht_data` and the generic streams of `_ingest_template_sensor`),
after every append all per-field value series have exactly the same length as
the shared time series, and each series retains at most the fixed cap
(100 resp. 200) of most-recent samples, oldest dropped first, order
preserved.  ("After every append" holds because the statement is quantified
over all append sequences, hence over every prefix.) -/
theorem C3_stream_store_capped_aligned (dhtAppends : List (ℚ × ℚ × ℚ))
    (fields : List String) (hnd : fields.Nodup)
    (genAppends : List (ℚ × (String → Option ℚ))) :
    ((runDhtAppends DhtStore.init dhtAppends).temp_data.length
        = (runDhtAppends DhtStore.init dhtAppends).time_data.length ∧
      (runDhtAppends DhtStore.init dhtAppends).hum_data.length
        = (runDhtAppends DhtStore.init dhtAppends).time_data.length ∧
      (runDhtAppends DhtStore.init dhtAppends).time_data.length
        = min 100 dhtAppends.length ∧
      (runDhtAppends DhtStore.init dhtAppends).time_data
        = takeLast 100 (dhtAppends.map (·.1)) ∧
      (runDhtAppends DhtStore.init dhtAppends).temp_data
        = takeLast 100 (dhtAppends.map (·.2.1)) ∧
      (runDhtAppends DhtStore.init dhtAppends).hum_data
        = takeLast 100 (dhtAppends.map (·.2.2))) ∧
    ((runGenIngests fields (genStreamOf fields []) genAppends).time
        = takeLast 200 (genAppends.map (·.1)) ∧
      (runGenIngests fields (genStreamOf fields []) genAppends).time.length
        = min 200 genAppends.length ∧
      ∀ f ∈ fields,
        (runGenIngests fields (genStreamOf fields []) genAppends).vals f
            = takeLast 200 (genAppends.map (fun x => (x.2 f).getD 0)) ∧
          ((runGenIngests fields (genStreamOf fields []) genAppends).vals f).length
            = (runGenIngests fields (genStreamOf fields []) genAppends).time.length) := by
  have hdht : runDhtAppends DhtStore.init dhtAppends = dhtStoreOf dhtAppends := by
    rw [← dhtStoreOf_nil, runDhtAppends_dhtStoreOf]
    simp
  have hgen : runGenIngests fields (genStreamOf fields []) genAppends
      = genStreamOf fields genAppends := by
    rw [runGenIngests_genStreamOf fields hnd]
    simp
  rw [hdht, hgen]
  refine ⟨⟨?_, ?_, ?_, rfl, rfl, rfl⟩, rfl, ?_, ?_⟩
  · simp [dhtStoreOf, takeLast_length]
  · simp [dhtStoreOf, takeLast_length]
  · simp [dhtStoreOf, takeLast_length]
  · simp [genStreamOf, takeLast_length]
  · intro f hf
    constructor
    · simp [genStreamOf, hf]
    · simp [genStreamOf, hf, takeLast_length]

/-- Closed instantiation of `C3_stream_store_capped_aligned`:
two DHT appends and one generic ingest over the field list `["A", "B"]`. -/
theorem C3_stream_store_capped_aligned_witness :
    (["A", "B"] : List String).Nodup ∧
    ((runDhtAppends DhtStore.init [(0, 1, 2), (3, 4, 5)]).temp_data.length
        = (runDhtAppends DhtStore.init [(0, 1, 2), (3, 4, 5)]).time_data.length ∧
      (runDhtAppends DhtStore.init [(0, 1, 2), (3, 4, 5)]).hum_data.length
        = (runDhtAppends DhtStore.init [(0, 1, 2), (3, 4, 5)]).time_data.length ∧
      (runDhtAppends DhtStore.init [(0, 1, 2), (3, 4, 5)]).time_data.length
        = min 100 ([(0, 1, 2), (3, 4, 5)] : List (ℚ × ℚ × ℚ)).length ∧
      (runDhtAppends DhtStore.init [(0, 1, 2), (3, 4, 5)]).time_data
        = takeLast 100 (([(0, 1, 2), (3, 4, 5)] : List (ℚ × ℚ × ℚ)).map (·.1)) ∧
      (runDhtAppends DhtStore.init [(0, 1, 2), (3, 4, 5)]).temp_data
        = takeLast 100 (([(0, 1, 2), (3, 4, 5)] : List (ℚ × ℚ × ℚ)).map (·.2.1)) ∧
      (runDhtAppends DhtStore.init [(0, 1, 2), (3, 4, 5)]).hum_data
        = takeLast 100 (([(0, 1, 2), (3, 4, 5)] : List (ℚ × ℚ × ℚ)).map (·.2.2))) ∧
    ((runGenIngests ["A", "B"] (genStreamOf ["A", "B"] []) [(7, fun _ => some 9)]).time
        = takeLast 200 (([(7, fun _ => some 9)] : List (ℚ × (String → Option ℚ))).map (·.1)) ∧
      (runGenIngests ["A", "B"] (genStreamOf ["A", "B"] []) [(7, fun _ => some 9)]).time.length
        = min 200 ([(7, fun _ => some 9)] : List (ℚ × (String → Option ℚ))).length ∧
      ∀ f ∈ (["A", "B"] : List String),
        (runGenIngests ["A", "B"] (genStreamOf ["A", "B"] []) [(7, fun _ => some 9)]).vals f
            = takeLast 200 (([(7, fun _ => some 9)] : List (ℚ × (String → Option ℚ))).map
                (fun x => (x.2 f).getD 0)) ∧
          ((runGenIngests ["A", "B"] (genStreamOf ["A", "B"] []) [(7, fun _ => some 9)]).vals
              f).length
            = (runGenIngests ["A", "B"] (genStreamOf ["A", "B"] [])
                [(7, fun _ => some 9)]).time.length) :=
  ⟨by decide,
    C3_stream_store_capped_aligned [(0, 1, 2), (3, 4, 5)] ["A", "B"] (by decide)
      [(7, fun _ => some 9)]⟩

/-- C1 counterexample: calibrate while the sensor reads yaw = 1, then receive
a reading with yaw = 10.  The display path subtracts the offset (9 = 10 − 1),
but `log_data` receives the raw value 10, not the normalized 9 — so the
claim that the logged values reflect the subtraction is false. -/
theorem C1_logged_values_raw_counterexample :
    (processOrientationReading
        ⟨calibrate_sensor { OrientationState.init with yaw := 1 }, []⟩ 10 0 0).1
      = (9, 0, 0) ∧
    (processOrientationReading
        ⟨calibrate_sensor { OrientationState.init with yaw := 1 }, []⟩ 10 0 0).2.dataLog
      = [("3D Orientation", [10, 0, 0])] ∧
    (processOrientationReading
        ⟨calibrate_sensor { OrientationState.init with yaw := 1 }, []⟩ 10 0 0).2.dataLog
      ≠ [("3D Orientation", [9, 0, 0])] := by
  refine ⟨?_, rfl, ?_⟩
  · show ((10 : ℚ) - 1, (0 : ℚ) - 0, (0 : ℚ) - 0) = (9, 0, 0)
    norm_num
  · intro h
    have h' : [("3D Orientation", [(10 : ℚ), 0, 0])]
        = [("3D Orientation", [(9 : ℚ), 0, 0])] := h
    norm_num at h'

/-- C1 amended: a calibrate action sets the offset to the sensor's current
yaw/pitch/roll; afterwards the *display* values are normalized by subtracting
this offset, while the values stored in `self.yaw/pitch/roll` and the values
logged via `log_data` are the raw decoded values, without the subtraction. -/
theorem C1_calibrate_offset_display_only (st : OrientationLogState) (y p r : ℚ) :
    (calibrate_sensor st.orient).cal_yaw = st.orient.yaw ∧
    (calibrate_sensor st.orient).cal_pitch = st.orient.pitch ∧
    (calibrate_sensor st.orient).cal_roll = st.orient.roll ∧
    (processOrientationReading ⟨calibrate_sensor st.orient, st.dataLog⟩ y p r).1
      = (y - st.orient.yaw, p - st.orient.pitch, r - st.orient.roll) ∧
    (processOrientationReading ⟨calibrate_sensor st.orient, st.dataLog⟩ y p r).2.dataLog
      = st.dataLog ++ [("3D Orientation", [y, p, r])] ∧
    (processOrientationReading ⟨calibrate_sensor st.orient, st.dataLog⟩ y p r).2.orient.yaw
      = y ∧
    (processOrientationReading ⟨calibrate_sensor st.orient, st.dataLog⟩ y p r).2.orient.pitch
      = p ∧
    (processOrientationReading ⟨calibrate_sensor st.orient, st.dataLog⟩ y p r).2.orient.roll
      = r :=
  ⟨rfl, rfl, rfl, rfl, rfl, rfl, rfl, rfl⟩

/-- C4: feeding the 10 required AS7341 keys split across two key:value lines
whose arrival gap is within the 1.5 s staleness window emits exactly one
reading carrying all 10 keys and clears the buffer; with a gap exceeding the
window, zero readings are emitted and the stale partial buffer is discarded
and replaced before the later keys are merged, so the final buffer holds
exactly the second line's keys. -/
theorem C4_frame_aggregator_staleness (m1 m2 : List (ChanKey × ℚ)) (t1 t2 : ℚ)
    (hm1 : m1 ≠ []) (hm2 : m2 ≠ [])
    (hcover : ∀ k : ChanKey, k ∈ m1.map Prod.fst ∨ k ∈ m2.map Prod.fst)
    (hmiss1 : ∃ k : ChanKey, k ∉ m1.map Prod.fst)
    (hmiss2 : ∃ k : ChanKey, k ∉ m2.map Prod.fst) :
    (tryParseAs7341 As7341Buf.init t1 ⟨m1, false, false⟩).emitted = none ∧
    (tryParseAs7341 As7341Buf.init t1 ⟨m1, false, false⟩).consumed = true ∧
    (t2 - t1 ≤ 3/2 →
      (∃ reading,
        (tryParseAs7341 (tryParseAs7341 As7341Buf.init t1 ⟨m1, false, false⟩).buf t2
            ⟨m2, false, false⟩).emitted = some reading ∧
        reading.map Prod.fst = as7341Keys) ∧
      (tryParseAs7341 (tryParseAs7341 As7341Buf.init t1 ⟨m1, false, false⟩).buf t2
          ⟨m2, false, false⟩).buf.data = fun _ => none) ∧
    (3/2 < t2 - t1 →
      (tryParseAs7341 (tryParseAs7341 As7341Buf.init t1 ⟨m1, false, false⟩).buf t2
          ⟨m2, false, false⟩).emitted = none ∧
      ∀ k : ChanKey,
        (((tryParseAs7341 (tryParseAs7341 As7341Buf.init t1 ⟨m1, false, false⟩).buf t2
            ⟨m2, false, false⟩).buf.data k).isSome ↔ k ∈ m2.map Prod.fst)) := by
  -- the first call merges m1 into an empty buffer and cannot complete the frame
  obtain ⟨k1, hk1⟩ := hmiss1
  have hfail1 : ¬ ∀ k ∈ as7341Keys, (mergePairs (fun _ => none) m1 k).isSome := by
    intro hall
    rcases (mergePairs_isSome (fun _ => none) m1 k1).mp
      (hall k1 (mem_as7341Keys k1)) with h | h
    · exact absurd h (by simp)
    · exact hk1 h
  have hr1 : tryParseAs7341 As7341Buf.init t1 ⟨m1, false, false⟩
      = ⟨none, ⟨mergePairs (fun _ => none) m1, t1⟩, true⟩ := by
    rw [show As7341Buf.init = ⟨fun _ => none, 0⟩ from rfl,
      tryParseAs7341_eq (fun _ => none) 0 t1 m1 hm1, ite_self, if_neg hfail1]
  refine ⟨by rw [hr1], by rw [hr1], ?_, ?_⟩
  · -- within the staleness window: the second line completes the frame
    intro hgap
    have hnst : ¬ (t2 - t1 > 3/2) := not_lt.mpr hgap
    have hall : ∀ k ∈ as7341Keys,
        (mergePairs (mergePairs (fun _ => none) m1) m2 k).isSome := by
      intro k _
      rcases hcover k with h | h
      · exact (mergePairs_isSome _ m2 k).mpr
          (Or.inl ((mergePairs_isSome _ m1 k).mpr (Or.inr h)))
      · exact (mergePairs_isSome _ m2 k).mpr (Or.inr h)
    rw [hr1, tryParseAs7341_eq (mergePairs (fun _ => none) m1) t1 t2 m2 hm2,
      if_neg hnst, if_pos hall]
    refine ⟨⟨_, rfl, ?_⟩, rfl⟩
    simp [List.map_map, Function.comp_def]
  · -- gap exceeding the window: buffer is discarded, frame not completed
    intro hgap
    obtain ⟨k2, hk2⟩ := hmiss2
    have hfail2 : ¬ ∀ k ∈ as7341Keys, (mergePairs (fun _ => none) m2 k).isSome := by
      intro hall
      rcases (mergePairs_isSome (fun _ => none) m2 k2).mp
        (hall k2 (mem_as7341Keys k2)) with h | h
      · exact absurd h (by simp)
      · exact hk2 h
    rw [hr1, tryParseAs7341_eq (mergePairs (fun _ => none) m1) t1 t2 m2 hm2,
      if_pos hgap, if_neg hfail2]
    refine ⟨rfl, fun k => ?_⟩
    rw [show (As7341Result.mk none ⟨mergePairs (fun _ => none) m2, t2⟩ true).buf.data
        = mergePairs (fun _ => none) m2 from rfl, mergePairs_isSome]
    simp

/-- Closed instantiation of `C4_frame_aggregator_staleness`: the keys
`F1..F5` arrive first, `F6..F8, CLEAR, NIR` second, once with gap 1 (within
the window) and once with gap 2 (stale). -/
theorem C4_frame_aggregator_staleness_witness :
    ((tryParseAs7341 As7341Buf.init 0
        ⟨[(.F1, 1), (.F2, 2), (.F3, 3), (.F4, 4), (.F5, 5)], false, false⟩).emitted = none) ∧
    ((∃ reading,
        (tryParseAs7341
            (tryParseAs7341 As7341Buf.init 0
              ⟨[(.F1, 1), (.F2, 2), (.F3, 3), (.F4, 4), (.F5, 5)], false, false⟩).buf 1
            ⟨[(.F6, 6), (.F7, 7), (.F8, 8), (.CLEAR, 9), (.NIR, 10)], false, false⟩).emitted
          = some reading ∧
        reading.map Prod.fst = as7341Keys) ∧
      (tryParseAs7341
          (tryParseAs7341 As7341Buf.init 0
            ⟨[(.F1, 1), (.F2, 2), (.F3, 3), (.F4, 4), (.F5, 5)], false, false⟩).buf 1
          ⟨[(.F6, 6), (.F7, 7), (.F8, 8), (.CLEAR, 9), (.NIR, 10)], false, false⟩).buf.data
        = fun _ => none) ∧
    ((tryParseAs7341
        (tryParseAs7341 As7341Buf.init 0
          ⟨[(.F1, 1), (.F2, 2), (.F3, 3), (.F4, 4), (.F5, 5)], false, false⟩).buf 2
        ⟨[(.F6, 6), (.F7, 7), (.F8, 8), (.CLEAR, 9), (.NIR, 10)], false, false⟩).emitted
      = none) := by
  have h1 := C4_frame_aggregator_staleness
    [(.F1, 1), (.F2, 2), (.F3, 3), (.F4, 4), (.F5, 5)]
    [(.F6, 6), (.F7, 7), (.F8, 8), (.CLEAR, 9), (.NIR, 10)] 0 1
    (by decide) (by decide) (by decide) (by decide) (by decide)
  have h2 := C4_frame_aggregator_staleness
    [(.F1, 1), (.F2, 2), (.F3, 3), (.F4, 4), (.F5, 5)]
    [(.F6, 6), (.F7, 7), (.F8, 8), (.CLEAR, 9), (.NIR, 10)] 0 2
    (by decide) (by decide) (by decide) (by decide) (by decide)
  exact ⟨h1.1, h1.2.2.1 (by norm_num), (h2.2.2.2 (by norm_num)).1⟩

/-! Helper lemmas for the delimited-line claims. -/

theorem dispatchDecode_state (a : String) (st : IngestState) (s : ActiveSensor)
    (toks : List (Option ℚ)) : (dispatchDecode a st s toks).state = st := by
  unfold dispatchDecode
  split <;> rfl

theorem dispatchDecode_consumed (a : String) (st : IngestState) (s : ActiveSensor)
    (toks : List (Option ℚ)) : (dispatchDecode a st s toks).consumed = true := by
  unfold dispatchDecode
  split <;> rfl

theorem registeredSensor_name (tpl : String → Option SensorTemplate) (ty : String) (n : Nat) :
    (registeredSensor tpl ty n).name = ty ∧ (registeredSensor tpl ty n).stype = ty := by
  unfold registeredSensor
  cases tpl ty <;> simp [genericSensor, templateSensor]

theorem autoRegister_fst_active (tpl : String → Option SensorTemplate) (st : IngestState)
    (ty : String) (n : Nat) :
    (autoRegister tpl st ty n).1.active_sensors
      = st.active_sensors ++ [registeredSensor tpl ty n] := rfl

theorem autoRegister_fst_log (tpl : String → Option SensorTemplate) (st : IngestState)
    (ty : String) (n : Nat) :
    (autoRegister tpl st ty n).1.data_log = st.data_log := rfl

theorem autoRegister_fst_streams (tpl : String → Option SensorTemplate) (st : IngestState)
    (ty : String) (n : Nat) :
    (autoRegister tpl st ty n).1.generic_streams
      = if (st.generic_streams.find?
            (fun p => p.1 == (registeredSensor tpl ty n).name)).isSome
        then st.generic_streams
        else st.generic_streams ++ [((registeredSensor tpl ty n).name, freshStream)] := rfl

theorem parse_csv_unseen (tpl : String → Option SensorTemplate) (st : IngestState)
    (tyTok : String) (toks : List (Option ℚ)) (h : ¬ toks = [])
    (hunseen : st.active_sensors.find? (sensorMatches (pyUpper tyTok)) = none) :
    parse_csv_sensor_line tpl st ⟨tyTok, toks⟩
      = dispatchDecode (pyUpper tyTok)
          (autoRegister tpl st (pyUpper tyTok) toks.length).1
          (autoRegister tpl st (pyUpper tyTok) toks.length).2 toks := by
  unfold parse_csv_sensor_line
  rw [if_neg h, hunseen]

theorem parse_csv_seen (tpl : String → Option SensorTemplate) (st : IngestState)
    (tyTok : String) (toks : List (Option ℚ)) (s : ActiveSensor) (h : ¬ toks = [])
    (hfound : st.active_sensors.find? (sensorMatches (pyUpper tyTok)) = some s) :
    parse_csv_sensor_line tpl st ⟨tyTok, toks⟩
      = dispatchDecode (pyUpper tyTok) st s toks := by
  unfold parse_csv_sensor_line
  rw [if_neg h, hfound]

/-- C5: auto-registration is at-most-once — for a previously unseen sensor
type, the first delimited line appends exactly one ActiveSensor named after
the (uppercased) type at the end of the active set, preserving all existing
entries and their order, and a second delimited line with the same type
token leaves the state entirely unchanged (no replacement, no duplicate). -/
theorem C5_auto_registration_at_most_once (tpl : String → Option SensorTemplate)
    (st : IngestState) (ty : String) (toks1 toks2 : List (Option ℚ))
    (h1 : ¬ toks1 = []) (h2 : ¬ toks2 = [])
    (hunseen : st.active_sensors.find? (sensorMatches (pyUpper ty)) = none) :
    ∃ s : ActiveSensor, s.name = pyUpper ty ∧ s.stype = pyUpper ty ∧
      (parse_csv_sensor_line tpl st ⟨ty, toks1⟩).state.active_sensors
        = st.active_sensors ++ [s] ∧
      (parse_csv_sensor_line tpl (parse_csv_sensor_line tpl st ⟨ty, toks1⟩).state
          ⟨ty, toks2⟩).state
        = (parse_csv_sensor_line tpl st ⟨ty, toks1⟩).state := by
  refine ⟨registeredSensor tpl (pyUpper ty) toks1.length,
    (registeredSensor_name _ _ _).1, (registeredSensor_name _ _ _).2, ?_, ?_⟩
  · rw [parse_csv_unseen tpl st ty toks1 h1 hunseen, dispatchDecode_state,
      autoRegister_fst_active]
  · have hst1 : (parse_csv_sensor_line tpl st ⟨ty, toks1⟩).state.active_sensors
        = st.active_sensors ++ [registeredSensor tpl (pyUpper ty) toks1.length] := by
      rw [parse_csv_unseen tpl st ty toks1 h1 hunseen, dispatchDecode_state,
        autoRegister_fst_active]
    have hmatch : sensorMatches (pyUpper ty)
        (registeredSensor tpl (pyUpper ty) toks1.length) = true := by
      simp [sensorMatches, (registeredSensor_name tpl (pyUpper ty) toks1.length).2,
        pyUpper_idem]
    have hfound : (parse_csv_sensor_line tpl st ⟨ty, toks1⟩).state.active_sensors.find?
          (sensorMatches (pyUpper ty))
        = some (registeredSensor tpl (pyUpper ty) toks1.length) := by
      rw [hst1, List.find?_append, hunseen]
      simp [hmatch]
    rw [parse_csv_seen tpl _ ty toks2 _ h2 hfound, dispatchDecode_state]

/-- Closed instantiation of `C5_auto_registration_at_most_once`: two `TDS`
lines on an empty state with no templates register exactly one sensor. -/
theorem C5_auto_registration_at_most_once_witness :
    ∃ s : ActiveSensor, s.name = pyUpper "TDS" ∧ s.stype = pyUpper "TDS" ∧
      (parse_csv_sensor_line (fun _ => none) ⟨[], [], []⟩
          ⟨"TDS", [some 450]⟩).state.active_sensors
        = ([] : List ActiveSensor) ++ [s] ∧
      (parse_csv_sensor_line (fun _ => none)
          (parse_csv_sensor_line (fun _ => none) ⟨[], [], []⟩ ⟨"TDS", [some 450]⟩).state
          ⟨"TDS", [some 450]⟩).state
        = (parse_csv_sensor_line (fun _ => none) ⟨[], [], []⟩ ⟨"TDS", [some 450]⟩).state :=
  C5_auto_registration_at_most_once (fun _ => none) ⟨[], [], []⟩ "TDS" [some 450] [some 450]
    (by decide) (by decide) rfl

/-- C6 counterexample: the delimited decoder's documented special cases break
the unconditional claim.  A 2-value line for the 3-field MPU6050 sensor is
decoded as `(pitch, roll)` with yaw defaulted — the claimed trailing-0.0
padding would instead assign the two tokens to the first two fields — and a
DS18B20 sentinel line emits no reading at all. -/
theorem C6_decoder_counterexample :
    decodeCsvValues "MPU6050" ["YAW", "PITCH", "ROLL"] [some 1, some 2]
      = some [("YAW", 0), ("PITCH", 1), ("ROLL", 2)] ∧
    decodeCsvValues "MPU6050" ["YAW", "PITCH", "ROLL"] [some 1, some 2]
      ≠ some [("YAW", 1), ("PITCH", 2), ("ROLL", 0)] ∧
    decodeCsvValues "DS18B20" ["F1"] [some (-127)] = none := by decide

/-- C6 amended: outside the two documented special cases (DS18B20
disconnection sentinel; 2-value line for a 3-field MPU6050/ITG-MPU6050
sensor), every delimited line decodes to an emitted reading in which each
value token parses as a float with non-numeric tokens becoming 0.0, missing
trailing fields default to 0.0, and extra tokens are truncated. -/
theorem C6_decoder_amended (sensor_type : String) (fields : List String)
    (toks : List (Option ℚ))
    (hds : ¬(sensor_type = "DS18B20" ∧ 0 < toks.length ∧ (csvFloats toks).headI ≤ -120))
    (hmpu : ¬((sensor_type = "MPU6050" ∨ sensor_type = "ITG/MPU6050")
        ∧ fields.length = 3 ∧ toks.length = 2)) :
    decodeCsvValues sensor_type fields toks
      = some (fields.zip ((csvFloats toks
          ++ List.replicate (fields.length - toks.length) 0).take fields.length)) ∧
    ∀ data, decodeCsvValues sensor_type fields toks = some data →
      data.map Prod.fst = fields ∧ data.length = fields.length := by
  have hlen : (csvFloats toks).length = toks.length := List.length_map _ _
  have hadj : mpuAdjust sensor_type fields (csvFloats toks) = csvFloats toks := by
    unfold mpuAdjust
    rw [if_neg (fun hc => hmpu ⟨hc.1, hc.2.1, hlen ▸ hc.2.2⟩)]
  have heq : decodeCsvValues sensor_type fields toks
      = some (fields.zip ((csvFloats toks
          ++ List.replicate (fields.length - toks.length) 0).take fields.length)) := by
    unfold decodeCsvValues
    rw [if_neg (fun hc => hds ⟨hc.1, hlen ▸ hc.2.1, hc.2.2⟩), hadj, hlen]
  refine ⟨heq, fun data hdata => ?_⟩
  rw [heq, Option.some_inj] at hdata
  subst hdata
  constructor
  · refine List.map_fst_zip _ _ ?_
    rw [List.length_take, List.length_append, hlen, List.length_replicate]
    omega
  · rw [List.length_zip, List.length_take, List.length_append, hlen,
      List.length_replicate]
    omega

/-- Closed instantiation of `C6_decoder_amended`: a `TDS` line with one
non-numeric and one numeric token against four fields decodes to 0.0 for the
bad token plus trailing 0.0 padding. -/
theorem C6_decoder_amended_witness :
    decodeCsvValues "TDS" ["A", "B", "C", "D"] [none, some 5]
      = some [("A", 0), ("B", 5), ("C", 0), ("D", 0)] :=
  ((C6_decoder_amended "TDS" ["A", "B", "C", "D"] [none, some 5]
    (by decide) (by decide)).1).trans (by decide)

/-- C10: a delimited DS18B20 line whose first value is at or below the −120
disconnection sentinel, processed while no DS18B20 sensor is active, appends
a new DS18B20 ActiveSensor (auto-registration runs before the sentinel
check) and creates its empty stream entry, but schedules no ingest: no
sample is appended to any stream, the data log is untouched, and all other
state is unchanged. -/
theorem C10_ds18b20_sentinel_registers_only (tpl : String → Option SensorTemplate)
    (st : IngestState) (tyTok : String) (toks : List (Option ℚ))
    (hty : pyUpper tyTok = "DS18B20") (hne : ¬ toks = [])
    (hsent : (csvFloats toks).headI ≤ -120)
    (hunseen : st.active_sensors.find? (sensorMatches "DS18B20") = none) :
    (parse_csv_sensor_line tpl st ⟨tyTok, toks⟩).consumed = true ∧
    (parse_csv_sensor_line tpl st ⟨tyTok, toks⟩).pending = none ∧
    (parse_csv_sensor_line tpl st ⟨tyTok, toks⟩).state.data_log = st.data_log ∧
    (parse_csv_sensor_line tpl st ⟨tyTok, toks⟩).state.active_sensors
      = st.active_sensors ++ [registeredSensor tpl "DS18B20" toks.length] ∧
    (registeredSensor tpl "DS18B20" toks.length).name = "DS18B20" ∧
    (registeredSensor tpl "DS18B20" toks.length).stype = "DS18B20" ∧
    (parse_csv_sensor_line tpl st ⟨tyTok, toks⟩).state.generic_streams
      = (if (st.generic_streams.find? (fun p => p.1 == "DS18B20")).isSome
         then st.generic_streams
         else st.generic_streams ++ [("DS18B20", freshStream)]) := by
  have hpos : 0 < (csvFloats toks).length := by
    unfold csvFloats
    rw [List.length_map]
    cases toks with
    | nil => exact absurd rfl hne
    | cons a l => exact Nat.succ_pos _
  have hdec : ∀ fs, decodeCsvValues "DS18B20" fs toks = none := by
    intro fs
    unfold decodeCsvValues
    rw [if_pos ⟨rfl, hpos, hsent⟩]
  have hname := registeredSensor_name tpl "DS18B20" toks.length
  have hp : parse_csv_sensor_line tpl st ⟨tyTok, toks⟩
      = ⟨true, (autoRegister tpl st "DS18B20" toks.length).1, none⟩ := by
    have h0 := parse_csv_unseen tpl st tyTok toks hne (by rw [hty]; exact hunseen)
    rw [hty] at h0
    rw [h0]
    unfold dispatchDecode
    rw [hdec]
  rw [hp]
  refine ⟨rfl, rfl, autoRegister_fst_log _ _ _ _, autoRegister_fst_active _ _ _ _,
    hname.1, hname.2, ?_⟩
  rw [autoRegister_fst_streams, hname.1]

/-- Closed instantiation of `C10_ds18b20_sentinel_registers_only`:
`DS18B20,-127` on an empty state. -/
theorem C10_ds18b20_sentinel_registers_only_witness :
    (parse_csv_sensor_line (fun _ => none) ⟨[], [], []⟩
        ⟨"DS18B20", [some (-127)]⟩).consumed = true ∧
    (parse_csv_sensor_line (fun _ => none) ⟨[], [], []⟩
        ⟨"DS18B20", [some (-127)]⟩).pending = none ∧
    (parse_csv_sensor_line (fun _ => none) ⟨[], [], []⟩
        ⟨"DS18B20", [some (-127)]⟩).state.data_log = ([] : List (String × List (Option ℚ))) ∧
    (parse_csv_sensor_line (fun _ => none) ⟨[], [], []⟩
        ⟨"DS18B20", [some (-127)]⟩).state.active_sensors
      = ([] : List ActiveSensor) ++ [registeredSensor (fun _ => none) "DS18B20" 1] ∧
    (registeredSensor (fun _ => none) "DS18B20" 1).name = "DS18B20" ∧
    (registeredSensor (fun _ => none) "DS18B20" 1).stype = "DS18B20" ∧
    (parse_csv_sensor_line (fun _ => none) ⟨[], [], []⟩
        ⟨"DS18B20", [some (-127)]⟩).state.generic_streams
      = (if ((([] : List (String × GenStream)).find? (fun p => p.1 == "DS18B20")).isSome)
         then ([] : List (String × GenStream))
         else ([] : List (String × GenStream)) ++ [("DS18B20", freshStream)]) :=
  C10_ds18b20_sentinel_registers_only (fun _ => none) ⟨[], [], []⟩ "DS18B20"
    [some (-127)] (by decide) (by decide) (by decide) rfl

/-! Helper lemmas for the legacy-decoder claim. -/

theorem yawBranch_temp (toks : List (String × ℚ)) (tf : ℚ)
    (htf : keyLookup "TEMP" toks = some tf) :
    ∀ tC, storedTemp (yawBranch toks) = some tC → tC = fahrenheitToCelsius tf := by
  intro tC htC
  unfold yawBranch at htC
  split at htC
  · rename_i y p r tf' h hY hP hR hT hH
    rw [htf] at hT
    simp only [storedTemp, Option.some_inj] at htC
    rw [← htC, Option.some_inj.mp hT]
  · simp [storedTemp] at htC

theorem tempDhtBranch_temp (toks : List (String × ℚ)) (tf : ℚ)
    (htf : keyLookupTempDht toks = some tf) :
    ∀ tC, storedTemp (tempDhtBranch toks) = some tC → tC = fahrenheitToCelsius tf := by
  intro tC htC
  unfold tempDhtBranch at htC
  split at htC
  · rename_i tf' h hT hH
    rw [htf] at hT
    simp only [storedTemp, Option.some_inj] at htC
    rw [← htC, Option.some_inj.mp hT]
  · simp [storedTemp] at htC

theorem genericBranch_temp (toks : List (String × ℚ)) (tf : ℚ)
    (htf : dictLookup "TEMP" toks = some tf) :
    ∀ tC, storedTemp (genericBranch toks) = some tC → tC = fahrenheitToCelsius tf := by
  intro tC htC
  unfold genericBranch at htC
  split at htC
  · simp [storedTemp] at htC
  · split at htC
    · rename_i tf' h hT hH
      rw [htf] at hT
      simp only [storedTemp, Option.some_inj] at htC
      rw [← htC, Option.some_inj.mp hT]
    · split at htC
      · rename_i tf' hT
        rw [htf] at hT
        simp only [storedTemp, Option.some_inj] at htC
        rw [← htC, Option.some_inj.mp hT]
      · split at htC <;> simp [storedTemp] at htC

/-- C2: on every legacy path that stores a temperature from a line carrying a
TEMP (or DHT) key:value token — the YAW-prefixed branch, the TEMP/DHT-prefixed
branch, and the generic key:value fallback — the stored Celsius value equals
`(F − 32) × 5 / 9` of the wire Fahrenheit value the branch read (exactly, in
the rational model). -/
theorem C2_legacy_fahrenheit_celsius (toks : List (String × ℚ)) :
    (∀ t0 rest, toks = t0 :: rest → pyStartsWith t0.1 "YAW" = true →
      ∀ tf tC, keyLookup "TEMP" toks = some tf →
        storedTemp (legacyDecode toks) = some tC → tC = (tf - 32) * 5 / 9) ∧
    (∀ t0 rest, toks = t0 :: rest → pyStartsWith t0.1 "YAW" = false →
      (pyStartsWith t0.1 "TEMP" || pyStartsWith t0.1 "DHT") = true →
      ∀ tf tC, keyLookupTempDht toks = some tf →
        storedTemp (legacyDecode toks) = some tC → tC = (tf - 32) * 5 / 9) ∧
    (∀ t0 rest, toks = t0 :: rest → pyStartsWith t0.1 "YAW" = false →
      (pyStartsWith t0.1 "TEMP" || pyStartsWith t0.1 "DHT") = false →
      ∀ tf tC, dictLookup "TEMP" toks = some tf →
        storedTemp (legacyDecode toks) = some tC → tC = (tf - 32) * 5 / 9) := by
  refine ⟨?_, ?_, ?_⟩
  · rintro t0 rest rfl hyaw tf tC htf htC
    change storedTemp
        (if pyStartsWith t0.1 "YAW" = true then yawBranch (t0 :: rest)
         else if (pyStartsWith t0.1 "TEMP" || pyStartsWith t0.1 "DHT") = true
           then tempDhtBranch (t0 :: rest)
           else genericBranch (t0 :: rest)) = some tC at htC
    rw [if_pos hyaw] at htC
    exact yawBranch_temp _ tf htf tC htC
  · rintro t0 rest rfl hyaw htd tf tC htf htC
    change storedTemp
        (if pyStartsWith t0.1 "YAW" = true then yawBranch (t0 :: rest)
         else if (pyStartsWith t0.1 "TEMP" || pyStartsWith t0.1 "DHT") = true
           then tempDhtBranch (t0 :: rest)
           else genericBranch (t0 :: rest)) = some tC at htC
    rw [if_neg (by simp [hyaw]), if_pos htd] at htC
    exact tempDhtBranch_temp _ tf htf tC htC
  · rintro t0 rest rfl hyaw htd tf tC htf htC
    change storedTemp
        (if pyStartsWith t0.1 "YAW" = true then yawBranch (t0 :: rest)
         else if (pyStartsWith t0.1 "TEMP" || pyStartsWith t0.1 "DHT") = true
           then tempDhtBranch (t0 :: rest)
           else genericBranch (t0 :: rest)) = some tC at htC
    rw [if_neg (by simp [hyaw]), if_neg (by simp [htd])] at htC
    exact genericBranch_temp _ tf htf tC htC

/-- Closed instantiation of `C2_legacy_fahrenheit_celsius`: the line
`TEMP:77 HUM:45` stores `(77 − 32) × 5/9 = 25` °C. -/
theorem C2_legacy_fahrenheit_celsius_witness :
    storedTemp (legacyDecode [("TEMP", 77), ("HUM", 45)])
      = some (((77 : ℚ) - 32) * 5 / 9) ∧
    ((77 : ℚ) - 32) * 5 / 9 = 25 := by
  have happ := (C2_legacy_fahrenheit_celsius [("TEMP", 77), ("HUM", 45)]).2.1
    ("TEMP", 77) [("HUM", 45)] rfl (by decide) (by decide) 77 (fahrenheitToCelsius 77)
    rfl rfl
  refine ⟨?_, by norm_num⟩
  rw [show storedTemp (legacyDecode [("TEMP", 77), ("HUM", 45)])
      = some (fahrenheitToCelsius 77) from rfl, happ]

/-! Helper lemmas for the template-registry claim. -/

theorem mem_dictInsert (m : List (String × SensorTemplate)) (k : String)
    (v : SensorTemplate) : ∀ p ∈ dictInsert m k v, p.2 = v ∨ p ∈ m := by
  intro p hp
  unfold dictInsert at hp
  split at hp
  · rcases List.mem_map.mp hp with ⟨q, hq, hpq⟩
    by_cases hqk : q.1 == k
    · rw [if_pos hqk] at hpq
      left
      rw [← hpq]
    · rw [if_neg hqk] at hpq
      right
      rw [← hpq]
      exact hq
  · rcases List.mem_append.mp hp with h | h
    · right
      exact h
    · left
      have hpv : p = (k, v) := by simpa using h
      rw [hpv]

theorem dictGet_mem (m : List (String × SensorTemplate)) (k : String)
    (tpl : SensorTemplate) (h : dictGet m k = some tpl) : ∃ p ∈ m, p.2 = tpl := by
  unfold dictGet at h
  cases hf : m.find? (fun p => p.1 == k) with
  | none => rw [hf] at h; simp at h
  | some p =>
      rw [hf] at h
      simp at h
      exact ⟨p, List.mem_of_find?_eq_some hf, h⟩

theorem foldl_dictInsert_prop (f : TemplateSpec → SensorTemplate)
    (P : SensorTemplate → Prop) (hf : ∀ t, P (f t)) :
    ∀ (ts : List TemplateSpec) (m0 : List (String × SensorTemplate)),
      (∀ p ∈ m0, P p.2) →
      ∀ p ∈ ts.foldl (fun m t => dictInsert m (pyUpper t.ttype) (f t)) m0, P p.2 := by
  intro ts
  induction ts with
  | nil => exact fun m0 hm0 p hp => hm0 p hp
  | cons t ts ih =>
      intro m0 hm0 p hp
      refine ih (dictInsert m0 (pyUpper t.ttype) (f t)) ?_ p hp
      intro q hq
      rcases mem_dictInsert _ _ _ q hq with h | h
      · rw [h]
        exact hf t
      · exact hm0 q h

theorem loadTemplates_some (validRegex : String → Bool) (ts : List TemplateSpec) :
    loadTemplates validRegex (some ts)
      = if (ts.all fun t => t.regex == "" || validRegex t.regex) = true
        then ts.foldl
          (fun m t => dictInsert m (pyUpper t.ttype)
            { ttype := t.ttype, icon := t.icon, fields := t.fields
              graph_type := t.graph_type, regex := t.regex
              compiled := if t.regex = "" then none else some t.regex })
          []
        else [] := rfl

/-- C7 counterexample: a template whose (non-empty) parser pattern fails to
compile is *not* kept with a `None` compiled parser — the exception escapes
the per-template loop, the whole `try` fails, and the cache becomes `{}`, so
the template is gone entirely. -/
theorem C7_invalid_pattern_counterexample :
    loadTemplates (fun _ => false)
        (some [⟨"X", "i", ["F1"], "single-line", "("⟩]) = [] ∧
    getTemplateByType
        (loadTemplates (fun _ => false) (some [⟨"X", "i", ["F1"], "single-line", "("⟩]))
        "X" = none := by decide

/-- C7 amended: loading fails softly — an absent or malformed configuration
source yields an empty registry, and so does any template whose non-empty
parser pattern fails to compile (the whole load aborts; the offending
template is *not* kept).  Lookups on the empty registry all return nothing
(ingestion then proceeds via the delimited/legacy fallbacks), and every
template that *is* loaded has its compiled parser equal to `None` exactly
when its pattern is empty or missing, its other fields intact. -/
theorem C7_registry_soft_failure_amended (validRegex : String → Bool)
    (src : Option (List TemplateSpec)) :
    (src = none → loadTemplates validRegex src = []) ∧
    (∀ ts t, src = some ts → t ∈ ts → ¬ t.regex = "" → validRegex t.regex = false →
      loadTemplates validRegex src = []) ∧
    (∀ ty, getTemplateByType ([] : List (String × SensorTemplate)) ty = none) ∧
    (∀ ty tpl, getTemplateByType (loadTemplates validRegex src) ty = some tpl →
      tpl.compiled = if tpl.regex = "" then none else some tpl.regex) := by
  refine ⟨?_, ?_, ?_, ?_⟩
  · rintro rfl
    rfl
  · rintro ts t rfl ht hreg hbad
    have hall : (ts.all fun t => t.regex == "" || validRegex t.regex) = false := by
      refine List.all_eq_false.mpr ⟨t, ht, ?_⟩
      show ¬ ((t.regex == "" || validRegex t.regex) = true)
      rw [Bool.not_eq_true, Bool.or_eq_false_iff]
      exact ⟨beq_eq_false_iff_ne.mpr hreg, hbad⟩
    rw [loadTemplates_some, hall]
    rfl
  · intro ty
    rfl
  · intro ty tpl h
    cases src with
    | none => simp [loadTemplates, getTemplateByType, dictGet] at h
    | some ts =>
        rw [loadTemplates_some] at h
        by_cases hall : (ts.all fun t => t.regex == "" || validRegex t.regex) = true
        · rw [if_pos hall] at h
          obtain ⟨p, hp, hptpl⟩ := dictGet_mem _ _ _ h
          have hprop := foldl_dictInsert_prop
            (fun t => { ttype := t.ttype, icon := t.icon, fields := t.fields
                        graph_type := t.graph_type, regex := t.regex
                        compiled := if t.regex = "" then none else some t.regex })
            (fun v => v.compiled = if v.regex = "" then none else some v.regex)
            (fun t => rfl) ts [] (fun p hp => absurd hp (List.not_mem_nil p)) p hp
          rw [← hptpl]
          exact hprop
        · rw [if_neg hall] at h
          simp [getTemplateByType, dictGet] at h

/-- Closed instantiation of `C7_registry_soft_failure_amended`: an absent
source loads nothing, empty-registry lookups return nothing, a loaded
template with an empty pattern has compiled parser `None`, and a single
invalid pattern empties the whole registry. -/
theorem C7_registry_soft_failure_amended_witness :
    loadTemplates (fun _ => true) none = [] ∧
    getTemplateByType ([] : List (String × SensorTemplate)) "DHT11" = none ∧
    ((⟨"DHT11", "t", ["TEMP", "HUM"], "dual-line", "", none⟩ : SensorTemplate).compiled
      = if (⟨"DHT11", "t", ["TEMP", "HUM"], "dual-line", "",
            none⟩ : SensorTemplate).regex = ""
        then none
        else some (⟨"DHT11", "t", ["TEMP", "HUM"], "dual-line", "",
          none⟩ : SensorTemplate).regex) ∧
    loadTemplates (fun _ => false) (some [⟨"X", "i", ["F1"], "single-line", "("⟩]) = [] :=
  ⟨(C7_registry_soft_failure_amended (fun _ => true) none).1 rfl,
    (C7_registry_soft_failure_amended (fun _ => true) none).2.2.1 "DHT11",
    (C7_registry_soft_failure_amended (fun _ => true)
        (some [⟨"DHT11", "t", ["TEMP", "HUM"], "dual-line", ""⟩])).2.2.2 "dht11"
      ⟨"DHT11", "t", ["TEMP", "HUM"], "dual-line", "", none⟩ (by decide),
    (C7_registry_soft_failure_amended (fun _ => false)
        (some [⟨"X", "i", ["F1"], "single-line", "("⟩])).2.1
      [⟨"X", "i", ["F1"], "single-line", "("⟩] ⟨"X", "i", ["F1"], "single-line", "("⟩
      rfl (by decide) (by decide) (by decide)⟩

/-! Helper lemmas for the notification-throttling claim. -/

theorem runSerial_empty_warn (n : Nat) : ∀ c : Nat,
    (runSerial c (List.replicate n .empty)).2
      = if c < 10 ∧ 10 ≤ c + n then 1 else 0 := by
  induction n with
  | zero =>
      intro c
      rw [List.replicate_zero]
      show (0 : Nat) = _
      rw [if_neg (by omega)]
  | succ n ih =>
      intro c
      rw [List.replicate_succ]
      show (if c + 1 = 10 then 1 else 0)
          + (runSerial (c + 1) (List.replicate n .empty)).2 = _
      rw [ih (c + 1)]
      split_ifs <;> omega

theorem runSerial_unrec_warn (n : Nat) : ∀ c : Nat,
    (runSerial c (List.replicate n .unrecognized)).2 = n := by
  induction n with
  | zero => intro c; rfl
  | succ n ih =>
      intro c
      rw [List.replicate_succ]
      show 1 + (runSerial 0 (List.replicate n .unrecognized)).2 = n + 1
      rw [ih 0]
      omega

/-- C9 counterexample: two consecutive unrecognized (non-empty, non-data)
lines fire two warning notifications — one per line — refuting the claim
that a run of consecutive non-data lines produces at most one warning.  Only
empty-read timeouts are counter-throttled. -/
theorem C9_per_line_warning_counterexample :
    (runSerial 0 [.unrecognized, .unrecognized]).2 = 2 ∧
    ¬ (runSerial 0 [.unrecognized, .unrecognized]).2 ≤ 1 := by decide

/-- C9 amended: for a run of consecutive empty-read timeouts, exactly one
no-data warning fires once the run reaches 10 (and none before) — in
particular 12 consecutive empty reads produce exactly one notification; an
unrecognized non-empty line, however, fires one warning notification per
line. -/
theorem C9_no_data_warning_throttled_amended :
    (∀ n, (runSerial 0 (List.replicate n .empty)).2 = if 10 ≤ n then 1 else 0) ∧
    (runSerial 0 (List.replicate 12 .empty)).2 = 1 ∧
    (∀ n, (runSerial 0 (List.replicate n .unrecognized)).2 = n) := by
  have he : ∀ n, (runSerial 0 (List.replicate n .empty)).2
      = if 10 ≤ n then 1 else 0 := by
    intro n
    rw [runSerial_empty_warn n 0]
    split_ifs <;> omega
  refine ⟨he, ?_, fun n => runSerial_unrec_warn n 0⟩
  rw [he 12]
  norm_num

/-- C8: calibration normalization is idempotent — `update_3d_orientation`
never writes the orientation or calibration state, so re-applying it with an
unchanged offset yields exactly the same normalized yaw/pitch/roll triple. -/
theorem C8_calibration_normalization_idempotent (st : OrientationState) :
    (update_3d_orientation st).2 = st ∧
    (update_3d_orientation (update_3d_orientation st).2).1 = (update_3d_orientation st).1 :=
  ⟨rfl, rfl⟩

end Sealie
